import Mathlib

/-!
Verification of the scoring and aggregation core of the
business-intelligence-api repository, as a shallow embedding in Lean 4.

Each Lean definition translates one Python function (or the input record it
reads), keeping the source's names and control structure:

* `calculate_lead_scoring`      — business_intelligence_analyzer.py
* `detection_score`/`confidence`— `analyze_tech_stack`, same file
* `calculate_seo_score`         — website_analyzer.py
* `generate_recommendations`    — website_analyzer.py
* `validate_url` / `bi_validate_url` — api_server.py / business_intelligence_api.py
* `analyze_batch`               — api_server.py

Machine integers are `Nat` (Python ints here are only ever non-negative:
every score accumulates from 0 by adding non-negative weights); Python's
float percentage is `ℚ`; fallible endpoints return `Except`.
-/

/-! ## Python-semantics helpers -/

/-- Truthiness of an optional string, as Python's `if d.get(k):` — `None`
and the empty string are falsy. -/
def truthyStr : Option String → Bool
  | none => false
  | some s => s ≠ ""

/-- `chStartsWith needle hay`: `needle` is a prefix of `hay` (char lists). -/
def chStartsWith : List Char → List Char → Bool
  | [], _ => true
  | _ :: _, [] => false
  | a :: as, b :: bs => a = b && chStartsWith as bs

/-- Char-list substring search used to model Python's `in` on strings. -/
def chHasSub (n : List Char) : List Char → Bool
  | [] => n.isEmpty
  | c :: rest => chStartsWith n (c :: rest) || chHasSub n rest

/-- Python's `needle in hay` on strings: substring containment. -/
def strHasSub (needle hay : String) : Bool :=
  chHasSub needle.data hay.data

/-- Python's `s.startswith(pre)`, via char lists (kernel-evaluable). -/
def pyStartsWith (s pre : String) : Bool :=
  chStartsWith pre.data s.data

/-- Python's `s.lower()` for the ASCII strings handled here. -/
def pyLower (s : String) : String :=
  ⟨s.data.map Char.toLower⟩

/-! ## Lead scoring — `calculate_lead_scoring`
(business_intelligence_analyzer.py, lines 1178–1296)

Input records hold exactly the keys the function reads from each of its
five dict arguments.  The accumulated scores (`social_engagement_score`,
`tech_sophistication_score`, `sales_readiness_score`) are `Nat`: in the
source they start at 0 and only ever receive `+=` of non-negative
constants, so they are natural numbers on every run. -/

structure CompanyProfile where
  industry : Option String
  employees : Option String
  location : Option String

structure SocialIntel where
  social_engagement_score : Nat
  social_budget_indicators : List String

structure TechAnalysisIn where
  tech_sophistication_score : Nat
  agency_opportunities : List String

structure BudgetAnalysis where
  overall_budget_level : String

structure ContactIntel where
  sales_readiness_score : Nat

structure CategoryScores where
  company_profile : Nat
  social_intelligence : Nat
  technology : Nat
  budget : Nat
  contact_accessibility : Nat
deriving DecidableEq

structure LeadScoring where
  overall_score : Nat
  category_scores : CategoryScores
  lead_quality : String
  sales_priority : String
  conversion_probability : String
  deal_size_estimate : String
  sales_cycle_estimate : String
deriving DecidableEq

/-- Company-profile block (25 points): industry in the favoured list gives 8,
any other truthy industry 5; truthy employees gives 8 when the string
contains "100+" or "50-", else 4; truthy location gives 4; clamped to 25. -/
def company_profile_points (cp : CompanyProfile) : Nat :=
  let s :=
    if (cp.industry = some "saas" ∨ cp.industry = some "ecommerce" ∨
        cp.industry = some "consulting") then 8
    else if truthyStr cp.industry then 5 else 0
  let s := s +
    (match cp.employees with
     | some e =>
         if e ≠ "" then (if strHasSub "100+" e || strHasSub "50-" e then 8 else 4)
         else 0
     | none => 0)
  let s := s + (if truthyStr cp.location then 4 else 0)
  min s 25

/-- Social-intelligence block (20 points): `min(engagement // 3, 15)` plus 5
when budget indicators are present, clamped to 20. -/
def social_intelligence_points (si : SocialIntel) : Nat :=
  let s := min (si.social_engagement_score / 3) 15
  let s := s + (if si.social_budget_indicators ≠ [] then 5 else 0)
  min s 20

/-- Technology block (20 points): `min(sophistication // 2, 15)` plus 5 when
agency opportunities are present, clamped to 20. -/
def technology_points (ta : TechAnalysisIn) : Nat :=
  let s := min (ta.tech_sophistication_score / 2) 15
  let s := s + (if ta.agency_opportunities ≠ [] then 5 else 0)
  min s 20

/-- Budget block (25 points): level "high" gives 25, "medium-high" 20,
"medium" 15, anything else (including "low" and the "unknown" default) 5. -/
def budget_points (ba : BudgetAnalysis) : Nat :=
  if ba.overall_budget_level = "high" then 25
  else if ba.overall_budget_level = "medium-high" then 20
  else if ba.overall_budget_level = "medium" then 15
  else 5

/-- Contact-accessibility block (10 points): `min(readiness // 2, 10)`. -/
def contact_accessibility_points (ci : ContactIntel) : Nat :=
  min (ci.sales_readiness_score / 2) 10

/-- Overall score: the exact sum of the five category scores
(`sum(lead_scoring['category_scores'].values())` in the source). -/
def overall_points (cp : CompanyProfile) (si : SocialIntel)
    (ta : TechAnalysisIn) (ba : BudgetAnalysis) (ci : ContactIntel) : Nat :=
  company_profile_points cp + social_intelligence_points si +
    technology_points ta + budget_points ba + contact_accessibility_points ci

/-- `calculate_lead_scoring`: five category blocks, overall = their sum, then
one `if/elif` chain on the overall score fills the tier-dependent fields. -/
def calculate_lead_scoring (cp : CompanyProfile) (si : SocialIntel)
    (ta : TechAnalysisIn) (ba : BudgetAnalysis) (ci : ContactIntel) :
    LeadScoring :=
  let scores : CategoryScores :=
    ⟨company_profile_points cp, social_intelligence_points si,
     technology_points ta, budget_points ba, contact_accessibility_points ci⟩
  let overall := overall_points cp si ta ba ci
  if 80 ≤ overall then
    { overall_score := overall, category_scores := scores
      lead_quality := "premium", sales_priority := "immediate"
      conversion_probability := "high"
      deal_size_estimate := "$10,000-$100,000+"
      sales_cycle_estimate := "1-3 months" }
  else if 60 ≤ overall then
    { overall_score := overall, category_scores := scores
      lead_quality := "qualified", sales_priority := "high"
      conversion_probability := "medium-high"
      deal_size_estimate := "$5,000-$25,000"
      sales_cycle_estimate := "2-6 months" }
  else if 40 ≤ overall then
    { overall_score := overall, category_scores := scores
      lead_quality := "potential", sales_priority := "medium"
      conversion_probability := "medium"
      deal_size_estimate := "$2,000-$10,000"
      sales_cycle_estimate := "3-12 months" }
  else
    { overall_score := overall, category_scores := scores
      lead_quality := "nurture", sales_priority := "low"
      conversion_probability := "low"
      deal_size_estimate := "$500-$5,000"
      sales_cycle_estimate := "6-18+ months" }

/-! Spec-side tier lookups: the quality tier as a function of the overall
score, and the tier-derived attributes as pure lookups on the tier alone. -/

/-- Tier of an overall score per the fixed thresholds 80/60/40. -/
def tierOf (n : Nat) : String :=
  if 80 ≤ n then "premium"
  else if 60 ≤ n then "qualified"
  else if 40 ≤ n then "potential"
  else "nurture"

/-- Deal-size estimate as a pure lookup on the tier. -/
def dealSizeOf (q : String) : String :=
  if q = "premium" then "$10,000-$100,000+"
  else if q = "qualified" then "$5,000-$25,000"
  else if q = "potential" then "$2,000-$10,000"
  else "$500-$5,000"

/-- Sales-cycle estimate as a pure lookup on the tier. -/
def salesCycleOf (q : String) : String :=
  if q = "premium" then "1-3 months"
  else if q = "qualified" then "2-6 months"
  else if q = "potential" then "3-12 months"
  else "6-18+ months"

/-- Conversion-probability label as a pure lookup on the tier. -/
def convProbOf (q : String) : String :=
  if q = "premium" then "high"
  else if q = "qualified" then "medium-high"
  else if q = "potential" then "medium"
  else "low"

example : tierOf 80 = "premium" := by decide
example : tierOf 79 = "qualified" := by decide
example : tierOf 59 = "potential" := by decide
example : tierOf 39 = "nurture" := by decide

/-! Helper lemmas about `calculate_lead_scoring`'s branch-independent fields. -/

theorem calculate_lead_scoring_overall (cp : CompanyProfile) (si : SocialIntel)
    (ta : TechAnalysisIn) (ba : BudgetAnalysis) (ci : ContactIntel) :
    (calculate_lead_scoring cp si ta ba ci).overall_score
      = overall_points cp si ta ba ci := by
  simp only [calculate_lead_scoring]
  repeat' split
  all_goals rfl

theorem calculate_lead_scoring_categories (cp : CompanyProfile)
    (si : SocialIntel) (ta : TechAnalysisIn) (ba : BudgetAnalysis)
    (ci : ContactIntel) :
    (calculate_lead_scoring cp si ta ba ci).category_scores
      = ⟨company_profile_points cp, social_intelligence_points si,
         technology_points ta, budget_points ba,
         contact_accessibility_points ci⟩ := by
  simp only [calculate_lead_scoring]
  repeat' split
  all_goals rfl

theorem budget_points_ge_five (ba : BudgetAnalysis) : 5 ≤ budget_points ba := by
  unfold budget_points
  repeat' split
  all_goals omega

theorem budget_points_le (ba : BudgetAnalysis) : budget_points ba ≤ 25 := by
  unfold budget_points
  repeat' split
  all_goals omega

/-- C1: the overall score determines the lead-quality tier by the fixed
exclusive thresholds 80/60/40, the tier alone determines the deal-size,
sales-cycle and conversion-probability fields by pure lookup, and every
score falls in exactly one tier (each tier label is equivalent to its
interval, and the intervals partition the naturals, hence [0,100]). -/
theorem lead_scoring_tier_partition (cp : CompanyProfile) (si : SocialIntel)
    (ta : TechAnalysisIn) (ba : BudgetAnalysis) (ci : ContactIntel) :
    ((calculate_lead_scoring cp si ta ba ci).lead_quality
        = tierOf (calculate_lead_scoring cp si ta ba ci).overall_score
      ∧ (calculate_lead_scoring cp si ta ba ci).deal_size_estimate
        = dealSizeOf (calculate_lead_scoring cp si ta ba ci).lead_quality
      ∧ (calculate_lead_scoring cp si ta ba ci).sales_cycle_estimate
        = salesCycleOf (calculate_lead_scoring cp si ta ba ci).lead_quality
      ∧ (calculate_lead_scoring cp si ta ba ci).conversion_probability
        = convProbOf (calculate_lead_scoring cp si ta ba ci).lead_quality)
    ∧ ∀ n : Nat,
        (tierOf n = "premium" ↔ 80 ≤ n)
        ∧ (tierOf n = "qualified" ↔ 60 ≤ n ∧ n < 80)
        ∧ (tierOf n = "potential" ↔ 40 ≤ n ∧ n < 60)
        ∧ (tierOf n = "nurture" ↔ n < 40) := by
  constructor
  · simp only [calculate_lead_scoring]
    split
    · next h =>
      refine ⟨?_, by dsimp only; decide, by dsimp only; decide, by dsimp only; decide⟩
      dsimp only
      unfold tierOf
      rw [if_pos h]
    · next h =>
      split
      · next h2 =>
        refine ⟨?_, by dsimp only; decide, by dsimp only; decide, by dsimp only; decide⟩
        dsimp only
        unfold tierOf
        rw [if_neg h, if_pos h2]
      · next h2 =>
        split
        · next h3 =>
          refine ⟨?_, by dsimp only; decide, by dsimp only; decide, by dsimp only; decide⟩
          dsimp only
          unfold tierOf
          rw [if_neg h, if_neg h2, if_pos h3]
        · next h3 =>
          refine ⟨?_, by dsimp only; decide, by dsimp only; decide, by dsimp only; decide⟩
          dsimp only
          unfold tierOf
          rw [if_neg h, if_neg h2, if_neg h3]
  · intro n
    rcases Nat.lt_or_ge n 40 with h1 | h1
    · have e : tierOf n = "nurture" := by
        unfold tierOf
        rw [if_neg (by omega), if_neg (by omega), if_neg (by omega)]
      rw [e]
      refine ⟨?_, ?_, ?_, ?_⟩ <;> constructor <;> intro h <;>
        first | rfl | omega | exact absurd h (by omega) | exact absurd h (by decide)
    · rcases Nat.lt_or_ge n 60 with h2 | h2
      · have e : tierOf n = "potential" := by
          unfold tierOf
          rw [if_neg (by omega), if_neg (by omega), if_pos (by omega)]
        rw [e]
        refine ⟨?_, ?_, ?_, ?_⟩ <;> constructor <;> intro h <;>
          first | rfl | omega | exact absurd h (by omega) | exact absurd h (by decide)
      · rcases Nat.lt_or_ge n 80 with h3 | h3
        · have e : tierOf n = "qualified" := by
            unfold tierOf
            rw [if_neg (by omega), if_pos (by omega)]
          rw [e]
          refine ⟨?_, ?_, ?_, ?_⟩ <;> refine ⟨fun h => ?_, fun h => ?_⟩ <;>
            first | rfl | omega | exact absurd h (by omega) | exact absurd h (by decide)
        · have e : tierOf n = "premium" := by
            unfold tierOf
            rw [if_pos (by omega)]
          rw [e]
          refine ⟨?_, ?_, ?_, ?_⟩ <;> refine ⟨fun h => ?_, fun h => ?_⟩ <;>
            first | rfl | omega | exact absurd h (by omega) | exact absurd h (by decide)

/-- C2: each category score is between 0 and its fixed cap (25/20/20/25/10),
the overall score equals exactly the sum of the five category scores, and
the overall score is at most 100. -/
theorem lead_scoring_category_bounds (cp : CompanyProfile) (si : SocialIntel)
    (ta : TechAnalysisIn) (ba : BudgetAnalysis) (ci : ContactIntel) :
    (calculate_lead_scoring cp si ta ba ci).category_scores.company_profile ≤ 25
    ∧ (calculate_lead_scoring cp si ta ba ci).category_scores.social_intelligence ≤ 20
    ∧ (calculate_lead_scoring cp si ta ba ci).category_scores.technology ≤ 20
    ∧ (calculate_lead_scoring cp si ta ba ci).category_scores.budget ≤ 25
    ∧ (calculate_lead_scoring cp si ta ba ci).category_scores.contact_accessibility ≤ 10
    ∧ (calculate_lead_scoring cp si ta ba ci).overall_score
        = (calculate_lead_scoring cp si ta ba ci).category_scores.company_profile
          + (calculate_lead_scoring cp si ta ba ci).category_scores.social_intelligence
          + (calculate_lead_scoring cp si ta ba ci).category_scores.technology
          + (calculate_lead_scoring cp si ta ba ci).category_scores.budget
          + (calculate_lead_scoring cp si ta ba ci).category_scores.contact_accessibility
    ∧ (calculate_lead_scoring cp si ta ba ci).overall_score ≤ 100 := by
  rw [calculate_lead_scoring_overall, calculate_lead_scoring_categories]
  dsimp only
  have h1 : company_profile_points cp ≤ 25 := Nat.min_le_right _ _
  have h2 : social_intelligence_points si ≤ 20 := Nat.min_le_right _ _
  have h3 : technology_points ta ≤ 20 := Nat.min_le_right _ _
  have h4 : budget_points ba ≤ 25 := budget_points_le ba
  have h5 : contact_accessibility_points ci ≤ 10 := Nat.min_le_right _ _
  refine ⟨h1, h2, h3, h4, h5, rfl, ?_⟩
  unfold overall_points
  omega

/-- C10: the budget category always contributes at least 5 points (the
"low"/default branch still awards 5), so the overall lead score is at least
5 and can never be 0. -/
theorem lead_scoring_budget_floor (cp : CompanyProfile) (si : SocialIntel)
    (ta : TechAnalysisIn) (ba : BudgetAnalysis) (ci : ContactIntel) :
    5 ≤ (calculate_lead_scoring cp si ta ba ci).category_scores.budget
    ∧ 5 ≤ (calculate_lead_scoring cp si ta ba ci).overall_score
    ∧ (calculate_lead_scoring cp si ta ba ci).overall_score ≠ 0 := by
  rw [calculate_lead_scoring_overall, calculate_lead_scoring_categories]
  dsimp only
  have hb : 5 ≤ budget_points ba := budget_points_ge_five ba
  unfold overall_points
  omega

/-! ## Recommendation aggregation — `generate_recommendations`
(website_analyzer.py, lines 1436–1451)

The source iterates over the analysis dict (insertion-ordered), collects the
`opportunities` list of every entry that has one, back-fills each
opportunity's `category` with the entry's key minus the `_analysis` suffix,
and stable-sorts by `priority_order.get(priority, 3)` with
`priority_order = {'high': 0, 'medium': 1, 'low': 2}` (Python's `list.sort`
is stable).  The analysis dict is modelled as an ordered association list;
entries without an `opportunities` key carry `none`.  Any stable sort by
the same key is extensionally unique, so the sort is embedded as a stable
insertion sort. -/

structure Opportunity where
  priority : String
  recommendation : String
  implementation : String
  impact : String
  category : String
deriving DecidableEq

/-- `priority_order.get(x['priority'], 3)`. -/
def priorityRank (p : String) : Nat :=
  if p = "high" then 0
  else if p = "medium" then 1
  else if p = "low" then 2
  else 3

/-- Flatten every entry's opportunity list, back-filling `category` with the
entry key minus its `_analysis` suffix (`analysis_type.replace('_analysis','')`). -/
def tagOpportunities (analysis : List (String × Option (List Opportunity))) :
    List Opportunity :=
  (analysis.map (fun e =>
    match e.2 with
    | none => []
    | some opps =>
        opps.map (fun o => { o with category := e.1.replace "_analysis" "" }))).flatten

/-- Stable insertion into a rank-sorted list: `x` goes before the first
element whose rank is ≥ its own, so earlier-collected opportunities stay
first among equals. -/
def insertByRank (x : Opportunity) : List Opportunity → List Opportunity
  | [] => [x]
  | y :: ys =>
      if priorityRank x.priority ≤ priorityRank y.priority then x :: y :: ys
      else y :: insertByRank x ys

/-- Stable sort by priority rank (extensionally equal to Python's stable
`list.sort(key=...)`). -/
def sortByPriority : List Opportunity → List Opportunity
  | [] => []
  | x :: xs => insertByRank x (sortByPriority xs)

/-- `generate_recommendations`: flatten + tag, then stable sort by rank. -/
def generate_recommendations
    (analysis : List (String × Option (List Opportunity))) :
    List Opportunity :=
  sortByPriority (tagOpportunities analysis)

theorem insertByRank_perm (x : Opportunity) (l : List Opportunity) :
    (insertByRank x l).Perm (x :: l) := by
  induction l with
  | nil => simp [insertByRank]
  | cons y ys ih =>
      unfold insertByRank
      split
      · exact List.Perm.refl _
      · exact ((ih.cons y).trans (List.Perm.swap x y ys)).symm.symm

theorem sortByPriority_perm (l : List Opportunity) :
    (sortByPriority l).Perm l := by
  induction l with
  | nil => exact List.Perm.refl _
  | cons x xs ih =>
      unfold sortByPriority
      exact (insertByRank_perm x (sortByPriority xs)).trans (ih.cons x)

theorem insertByRank_pairwise (x : Opportunity) (l : List Opportunity)
    (h : l.Pairwise (fun a b => priorityRank a.priority ≤ priorityRank b.priority)) :
    (insertByRank x l).Pairwise
      (fun a b => priorityRank a.priority ≤ priorityRank b.priority) := by
  induction l with
  | nil => simp [insertByRank]
  | cons y ys ih =>
      unfold insertByRank
      rcases h with _ | ⟨hy, hys⟩
      split
      · next hle =>
        refine List.Pairwise.cons ?_ (List.Pairwise.cons hy hys)
        intro b hb
        rcases List.mem_cons.mp hb with rfl | hb'
        · exact hle
        · exact le_trans hle (hy _ hb')
      · next hgt =>
        refine List.Pairwise.cons ?_ (ih hys)
        intro b hb
        have hmem := (insertByRank_perm x ys).mem_iff.mp hb
        rcases List.mem_cons.mp hmem with rfl | hb'
        · omega
        · exact hy _ hb'

theorem sortByPriority_pairwise (l : List Opportunity) :
    (sortByPriority l).Pairwise
      (fun a b => priorityRank a.priority ≤ priorityRank b.priority) := by
  induction l with
  | nil => simp [sortByPriority]
  | cons x xs ih => exact insertByRank_pairwise x (sortByPriority xs) ih

theorem insertByRank_filter_rank (x : Opportunity) (l : List Opportunity)
    (k : Nat) :
    (insertByRank x l).filter (fun o => priorityRank o.priority = k)
      = if priorityRank x.priority = k then
          x :: l.filter (fun o => priorityRank o.priority = k)
        else l.filter (fun o => priorityRank o.priority = k) := by
  induction l with
  | nil =>
      by_cases hx : priorityRank x.priority = k <;>
        simp [insertByRank, List.filter_cons, hx]
  | cons y ys ih =>
      unfold insertByRank
      split
      · next hle =>
        by_cases hx : priorityRank x.priority = k
        · simp [List.filter_cons, hx]
        · simp [List.filter_cons, hx]
      · next hgt =>
        have hylt : priorityRank y.priority < priorityRank x.priority := by omega
        by_cases hx : priorityRank x.priority = k
        · have hy : ¬ (priorityRank y.priority = k) := by omega
          simp only [List.filter_cons, ih, hx, if_pos, decide_eq_true_eq]
          simp [hy]
        · simp only [List.filter_cons, ih]
          by_cases hy : priorityRank y.priority = k
          · simp [hy, hx]
          · simp [hy, hx]

theorem sortByPriority_filter_rank (l : List Opportunity) (k : Nat) :
    (sortByPriority l).filter (fun o => priorityRank o.priority = k)
      = l.filter (fun o => priorityRank o.priority = k) := by
  induction l with
  | nil => rfl
  | cons x xs ih =>
      unfold sortByPriority
      rw [insertByRank_filter_rank]
      by_cases hx : priorityRank x.priority = k
      · simp [List.filter_cons, hx, ih]
      · simp [List.filter_cons, hx, ih]

/-- C3: the merged recommendation list is a permutation of the concatenation
of every detector's opportunity list tagged with its originating category
(no de-duplication), adjacent priorities are non-decreasing in the rank
order high < medium < low, and the sort is stable: restricted to any one
priority rank, the output preserves the original (tagged, flattened)
order exactly. -/
theorem generate_recommendations_sorted_stable
    (analysis : List (String × Option (List Opportunity))) :
    (generate_recommendations analysis).Perm (tagOpportunities analysis)
    ∧ (generate_recommendations analysis).Chain'
        (fun a b => priorityRank a.priority ≤ priorityRank b.priority)
    ∧ ∀ k : Nat,
        (generate_recommendations analysis).filter
            (fun o => priorityRank o.priority = k)
          = (tagOpportunities analysis).filter
              (fun o => priorityRank o.priority = k) := by
  refine ⟨sortByPriority_perm _, ?_, fun k => sortByPriority_filter_rank _ k⟩
  exact (sortByPriority_pairwise _).chain'

/-! ## SEO scoring — `calculate_seo_score`
(website_analyzer.py, lines 1315–1379)

The input record holds exactly the keys of the `seo_analysis` dict that the
function reads.  `header_counts` is the fixed h1–h6 dict built by
`analyze_header_structure`; `alt_text_percentage` is the Python float
`(images_with_alt / total_images) * 100`, embedded as `ℚ`;
`minification_indicators` is a dict that may receive the keys `js`/`css`
(its truthiness is their disjunction).  `canonical` and `google_maps_embed`
exist in the analysis record (`analyze_meta_tags`, `analyze_local_seo`) but
are never read by the scorer. -/

structure HeaderCounts where
  h1 : Nat
  h2 : Nat
  h3 : Nat
  h4 : Nat
  h5 : Nat
  h6 : Nat
deriving DecidableEq

/-- `sum(header_counts.values())`. -/
def HeaderCounts.total (h : HeaderCounts) : Nat :=
  h.h1 + h.h2 + h.h3 + h.h4 + h.h5 + h.h6

structure SeoAnalysis where
  title : Option String
  title_length : Nat
  description : Option String
  description_length : Nat
  canonical : Option String
  header_counts : HeaderCounts
  alt_text_percentage : ℚ
  lazy_loading : Nat
  json_ld_schemas : List String
  microdata : List String
  nap_phone : Bool
  nap_address : Bool
  local_schema : Bool
  google_maps_embed : Bool
  seo_friendly : Bool
  breadcrumbs : Bool
  minification_js : Bool
  minification_css : Bool
  cdn_usage : Bool
deriving DecidableEq

/-- Title block: `+10` for a truthy title, `+5` when its length is in
[30, 60] (nested inside the title check, as in the source). -/
def seoTitleBlock (a : SeoAnalysis) (score : Nat) : Nat :=
  if truthyStr a.title then
    let score := score + 10
    if 30 ≤ a.title_length ∧ a.title_length ≤ 60 then score + 5 else score
  else score

/-- Description block: `+5` for a truthy description, `+5` when its length
is in [120, 160]. -/
def seoDescriptionBlock (a : SeoAnalysis) (score : Nat) : Nat :=
  if truthyStr a.description then
    let score := score + 5
    if 120 ≤ a.description_length ∧ a.description_length ≤ 160 then score + 5
    else score
  else score

/-- Header block: `+10` for exactly one h1, `+5` when the header counts sum
to at least 3. -/
def seoHeaderBlock (a : SeoAnalysis) (score : Nat) : Nat :=
  let score := if a.header_counts.h1 = 1 then score + 10 else score
  if 3 ≤ a.header_counts.total then score + 5 else score

/-- Image block: `+10` for alt coverage ≥ 80 (elif ≥ 50 gives `+5`), `+5`
for any lazy-loaded image. -/
def seoImageBlock (a : SeoAnalysis) (score : Nat) : Nat :=
  let score :=
    if (80 : ℚ) ≤ a.alt_text_percentage then score + 10
    else if (50 : ℚ) ≤ a.alt_text_percentage then score + 5
    else score
  if 0 < a.lazy_loading then score + 5 else score

/-- Schema block: `+15` for any JSON-LD schema or microdata. -/
def seoSchemaBlock (a : SeoAnalysis) (score : Nat) : Nat :=
  if a.json_ld_schemas ≠ [] ∨ a.microdata ≠ [] then score + 15 else score

/-- Local-SEO block: `+5` for NAP phone and address, `+5` for a
LocalBusiness schema. -/
def seoLocalBlock (a : SeoAnalysis) (score : Nat) : Nat :=
  let score := if a.nap_phone && a.nap_address then score + 5 else score
  if a.local_schema then score + 5 else score

/-- URL block: `+5` for an SEO-friendly URL, `+5` for breadcrumbs. -/
def seoUrlBlock (a : SeoAnalysis) (score : Nat) : Nat :=
  let score := if a.seo_friendly then score + 5 else score
  if a.breadcrumbs then score + 5 else score

/-- Speed block: `+5` for minified assets, `+5` for CDN usage. -/
def seoSpeedBlock (a : SeoAnalysis) (score : Nat) : Nat :=
  let score := if a.minification_js || a.minification_css then score + 5
    else score
  if a.cdn_usage then score + 5 else score

/-- `calculate_seo_score`: the eight blocks run in source order on an
accumulator starting at 0; the result is `min(score, 100)`. -/
def calculate_seo_score (a : SeoAnalysis) : Nat :=
  min (seoSpeedBlock a (seoUrlBlock a (seoLocalBlock a (seoSchemaBlock a
        (seoImageBlock a (seoHeaderBlock a (seoDescriptionBlock a
          (seoTitleBlock a 0)))))))) 100

/-! Spec-side contribution terms, one per sub-score of the claim. -/

def titlePoints (a : SeoAnalysis) : Nat :=
  if truthyStr a.title then
    10 + (if 30 ≤ a.title_length ∧ a.title_length ≤ 60 then 5 else 0)
  else 0

def descriptionPoints (a : SeoAnalysis) : Nat :=
  if truthyStr a.description then
    5 + (if 120 ≤ a.description_length ∧ a.description_length ≤ 160 then 5 else 0)
  else 0

def headerPoints (a : SeoAnalysis) : Nat :=
  (if a.header_counts.h1 = 1 then 10 else 0)
    + (if 3 ≤ a.header_counts.total then 5 else 0)

def imagePoints (a : SeoAnalysis) : Nat :=
  (if (80 : ℚ) ≤ a.alt_text_percentage then 10
   else if (50 : ℚ) ≤ a.alt_text_percentage then 5 else 0)
    + (if 0 < a.lazy_loading then 5 else 0)

def schemaPoints (a : SeoAnalysis) : Nat :=
  if a.json_ld_schemas ≠ [] ∨ a.microdata ≠ [] then 15 else 0

def localSeoPoints (a : SeoAnalysis) : Nat :=
  (if a.nap_phone && a.nap_address then 5 else 0)
    + (if a.local_schema then 5 else 0)

def urlPoints (a : SeoAnalysis) : Nat :=
  (if a.seo_friendly then 5 else 0) + (if a.breadcrumbs then 5 else 0)

def speedPoints (a : SeoAnalysis) : Nat :=
  (if a.minification_js || a.minification_css then 5 else 0)
    + (if a.cdn_usage then 5 else 0)

theorem seoTitleBlock_eq (a : SeoAnalysis) (s : Nat) :
    seoTitleBlock a s = s + titlePoints a := by
  unfold seoTitleBlock titlePoints
  by_cases h1 : truthyStr a.title = true <;>
    by_cases h2 : 30 ≤ a.title_length ∧ a.title_length ≤ 60 <;>
      simp [h1, h2]

theorem seoDescriptionBlock_eq (a : SeoAnalysis) (s : Nat) :
    seoDescriptionBlock a s = s + descriptionPoints a := by
  unfold seoDescriptionBlock descriptionPoints
  by_cases h1 : truthyStr a.description = true <;>
    by_cases h2 : 120 ≤ a.description_length ∧ a.description_length ≤ 160 <;>
      simp [h1, h2]

theorem seoHeaderBlock_eq (a : SeoAnalysis) (s : Nat) :
    seoHeaderBlock a s = s + headerPoints a := by
  unfold seoHeaderBlock headerPoints
  by_cases h1 : a.header_counts.h1 = 1 <;>
    by_cases h2 : 3 ≤ a.header_counts.total <;>
      simp [h1, h2] <;> omega

theorem seoImageBlock_eq (a : SeoAnalysis) (s : Nat) :
    seoImageBlock a s = s + imagePoints a := by
  unfold seoImageBlock imagePoints
  by_cases h1 : (80 : ℚ) ≤ a.alt_text_percentage <;>
    by_cases h2 : (50 : ℚ) ≤ a.alt_text_percentage <;>
      by_cases h3 : 0 < a.lazy_loading <;>
        simp [h1, h2, h3] <;> omega

theorem seoSchemaBlock_eq (a : SeoAnalysis) (s : Nat) :
    seoSchemaBlock a s = s + schemaPoints a := by
  unfold seoSchemaBlock schemaPoints
  by_cases h : a.json_ld_schemas ≠ [] ∨ a.microdata ≠ [] <;> simp [h]

theorem seoLocalBlock_eq (a : SeoAnalysis) (s : Nat) :
    seoLocalBlock a s = s + localSeoPoints a := by
  unfold seoLocalBlock localSeoPoints
  by_cases h1 : (a.nap_phone && a.nap_address) = true <;>
    by_cases h2 : a.local_schema = true <;>
      simp [h1, h2] <;> omega

theorem seoUrlBlock_eq (a : SeoAnalysis) (s : Nat) :
    seoUrlBlock a s = s + urlPoints a := by
  unfold seoUrlBlock urlPoints
  by_cases h1 : a.seo_friendly = true <;>
    by_cases h2 : a.breadcrumbs = true <;>
      simp [h1, h2] <;> omega

theorem seoSpeedBlock_eq (a : SeoAnalysis) (s : Nat) :
    seoSpeedBlock a s = s + speedPoints a := by
  unfold seoSpeedBlock speedPoints
  by_cases h1 : (a.minification_js || a.minification_css) = true <;>
    by_cases h2 : a.cdn_usage = true <;>
      simp [h1, h2] <;> omega

theorem calculate_seo_score_eq (a : SeoAnalysis) :
    calculate_seo_score a
      = min (titlePoints a + descriptionPoints a + headerPoints a
             + imagePoints a + schemaPoints a + localSeoPoints a
             + urlPoints a + speedPoints a) 100 := by
  unfold calculate_seo_score
  rw [seoSpeedBlock_eq, seoUrlBlock_eq, seoLocalBlock_eq, seoSchemaBlock_eq,
    seoImageBlock_eq, seoHeaderBlock_eq, seoDescriptionBlock_eq,
    seoTitleBlock_eq]
  omega

/-- An analysis record on which every positive branch fires. -/
def maxSeoAnalysis : SeoAnalysis :=
  { title := some "Austin Plumbing Experts | Emergency Pipe Repair"
    title_length := 45
    description := some "desc"
    description_length := 140
    canonical := some "https://example.com/"
    header_counts := ⟨1, 1, 1, 0, 0, 0⟩
    alt_text_percentage := 100
    lazy_loading := 2
    json_ld_schemas := ["localbusiness"]
    microdata := []
    nap_phone := true
    nap_address := true
    local_schema := true
    google_maps_embed := true
    seo_friendly := true
    breadcrumbs := true
    minification_js := true
    minification_css := true
    cdn_usage := true }

/-- C4: the SEO score is exactly the clamped sum of the fixed sub-score
contributions (title 10+5, description 5+5, headers 10+5, images 10|5 +5,
schema 15, local 5+5, URL 5+5, speed 5+5); each contribution is bounded by
its advertised maximum, the maxima total 100 (an all-positive input scores
exactly 100), and the returned score is clamped to at most 100. -/
theorem seo_score_weights (a : SeoAnalysis) :
    calculate_seo_score a
      = min (titlePoints a + descriptionPoints a + headerPoints a
             + imagePoints a + schemaPoints a + localSeoPoints a
             + urlPoints a + speedPoints a) 100
    ∧ titlePoints a ≤ 15 ∧ descriptionPoints a ≤ 10 ∧ headerPoints a ≤ 15
    ∧ imagePoints a ≤ 15 ∧ schemaPoints a ≤ 15 ∧ localSeoPoints a ≤ 10
    ∧ urlPoints a ≤ 10 ∧ speedPoints a ≤ 10
    ∧ calculate_seo_score maxSeoAnalysis = 100
    ∧ calculate_seo_score a ≤ 100 := by
  refine ⟨calculate_seo_score_eq a, ?_, ?_, ?_, ?_, ?_, ?_, ?_, ?_,
    by decide, ?_⟩
  · unfold titlePoints; repeat' split
    all_goals omega
  · unfold descriptionPoints; repeat' split
    all_goals omega
  · unfold headerPoints; repeat' split
    all_goals omega
  · unfold imagePoints; repeat' split
    all_goals omega
  · unfold schemaPoints; repeat' split
    all_goals omega
  · unfold localSeoPoints; repeat' split
    all_goals omega
  · unfold urlPoints; repeat' split
    all_goals omega
  · unfold speedPoints; repeat' split
    all_goals omega
  · rw [calculate_seo_score_eq]; omega

/-- The analysis record of the boundary document of the spec: a 45-character
title, a 140-character meta description, a single h1 (and no other
headers), 100% image alt-text coverage, one (non-LocalBusiness) JSON-LD
schema block, a canonical link and a Google Maps iframe — and nothing else:
no lazy loading, no NAP phone/address signals, no LocalBusiness schema, no
breadcrumbs, no minified assets, no CDN, served from a clean URL
(`seo_friendly` defaults to `True` in `analyze_url_structure`). -/
def boundarySeoAnalysis : SeoAnalysis :=
  { title := some "Austin Plumbing Experts and Drain Cleaning Co"
    title_length := 45
    description := some "Family-owned Austin plumbing company offering quick emergency pipe repair, drain cleaning, and water heater installation with same-day care."
    description_length := 140
    canonical := some "https://example.com/"
    header_counts := ⟨1, 0, 0, 0, 0, 0⟩
    alt_text_percentage := 100
    lazy_loading := 0
    json_ld_schemas := ["organization"]
    microdata := []
    nap_phone := false
    nap_address := false
    local_schema := false
    google_maps_embed := true
    seo_friendly := true
    breadcrumbs := false
    minification_js := false
    minification_css := false
    cdn_usage := false }

/-- C5 counterexample: the spec's boundary document scores 65/100, nowhere
near 100 — the canonical link and the Google Maps embed are never read by
`calculate_seo_score`, a single h1 leaves the header sum below 3, and the
local/speed/lazy-loading branches all miss. -/
theorem seo_boundary_counterexample :
    calculate_seo_score boundarySeoAnalysis = 65
    ∧ ¬ (90 ≤ calculate_seo_score boundarySeoAnalysis) := by
  constructor
  · decide
  · decide

/-- C5 amended: the listed features guarantee only the title (15),
description (10), single-h1 (10), image-coverage (10) and schema (15)
contributions, so any analysis with them scores at least 60 — and, as the
counterexample shows, an otherwise bare page scores exactly 65, not near
100, since the canonical link and maps embed contribute nothing. -/
theorem seo_boundary_amended (a : SeoAnalysis)
    (ht : truthyStr a.title = true) (hlen : a.title_length = 45)
    (hd : truthyStr a.description = true) (hdlen : a.description_length = 140)
    (hh1 : a.header_counts.h1 = 1)
    (halt : a.alt_text_percentage = 100)
    (hjson : a.json_ld_schemas ≠ []) :
    60 ≤ calculate_seo_score a := by
  rw [calculate_seo_score_eq]
  have h1 : titlePoints a = 15 := by
    unfold titlePoints
    rw [if_pos ht, if_pos (by omega)]
  have h2 : descriptionPoints a = 10 := by
    unfold descriptionPoints
    rw [if_pos hd, if_pos (by omega)]
  have h3 : 10 ≤ headerPoints a := by
    unfold headerPoints
    rw [if_pos hh1]
    omega
  have h4 : 10 ≤ imagePoints a := by
    unfold imagePoints
    rw [halt, if_pos (by norm_num)]
    omega
  have h5 : schemaPoints a = 15 := by
    unfold schemaPoints
    rw [if_pos (Or.inl hjson)]
  omega

/-- Closed witness for the amended C5 bound at the boundary record. -/
theorem seo_boundary_amended_witness :
    60 ≤ calculate_seo_score boundarySeoAnalysis :=
  seo_boundary_amended boundarySeoAnalysis (by decide) (by decide) (by decide)
    (by decide) (by decide) (by decide) (by decide)

/-! ## Technology detection — `analyze_tech_stack`
(business_intelligence_analyzer.py, lines 747–808)

Per technology, the source accumulates a detection score over four match
surfaces and reports `confidence = min(detection_score * 10, 100)`.  A
regex pattern is embedded as the predicate on strings that `re.search`
(truthiness of a match) denotes; the page HTML and each script `src` /
link `href` are lowercased before matching, exactly as in the source.
Scripts or links without the attribute (`script.get('src')` falsy) are
`none` and are skipped. -/

structure TechConfig where
  patterns : List (String → Bool)
  indicators : List String

structure TechDoc where
  html : String
  scripts : List (Option String)
  links : List (Option String)

/-- `detection_score`: +2 per pattern matching the page HTML, +3 per
indicator substring found in it, +3 per pattern matching each script src,
+2 per pattern matching each link href — in source loop order. -/
def detection_score (cfg : TechConfig) (doc : TechDoc) : Nat :=
  let page_html := pyLower doc.html
  let s := cfg.patterns.foldl
    (fun acc p => if p page_html then acc + 2 else acc) 0
  let s := cfg.indicators.foldl
    (fun acc ind => if strHasSub (pyLower ind) page_html then acc + 3 else acc) s
  let s := doc.scripts.foldl
    (fun acc o =>
      match o with
      | none => acc
      | some src => cfg.patterns.foldl
          (fun a p => if p (pyLower src) then a + 3 else a) acc) s
  doc.links.foldl
    (fun acc o =>
      match o with
      | none => acc
      | some href => cfg.patterns.foldl
          (fun a p => if p (pyLower href) then a + 2 else a) acc) s

/-- Reported confidence: `min(detection_score * 10, 100)`. -/
def confidence (cfg : TechConfig) (doc : TechDoc) : Nat :=
  min (detection_score cfg doc * 10) 100

/-- How many of the configured patterns match a string. -/
def patternMatchCount (ps : List (String → Bool)) (s : String) : Nat :=
  ps.countP (fun p => p s)

/-- Pattern matches of one optional (lowercased) attribute value. -/
def srcMatches (cfg : TechConfig) : Option String → Nat
  | none => 0
  | some s => patternMatchCount cfg.patterns (pyLower s)

theorem foldl_if_count {α : Type} (f : α → Bool) (k : Nat) (l : List α)
    (init : Nat) :
    l.foldl (fun acc x => if f x then acc + k else acc) init
      = init + k * l.countP f := by
  induction l generalizing init with
  | nil => simp
  | cons x xs ih =>
      simp only [List.foldl_cons, List.countP_cons]
      by_cases h : f x = true
      · rw [if_pos h, ih]
        simp only [h, if_pos]
        rw [Nat.mul_add, Nat.mul_one]
        omega
      · rw [if_neg h, ih]
        simp [h]

theorem foldl_attr_count (cfg : TechConfig) (k : Nat)
    (l : List (Option String)) (init : Nat) :
    l.foldl
      (fun acc o =>
        match o with
        | none => acc
        | some s => cfg.patterns.foldl
            (fun a p => if p (pyLower s) then a + k else a) acc) init
      = init + k * (l.map (srcMatches cfg)).sum := by
  induction l generalizing init with
  | nil => simp
  | cons o os ih =>
      cases o with
      | none =>
          simp only [List.foldl_cons]
          rw [ih]
          simp [srcMatches]
      | some s =>
          simp only [List.foldl_cons]
          rw [foldl_if_count, ih, List.map_cons, List.sum_cons]
          have e : srcMatches cfg (some s)
              = List.countP (fun p => p (pyLower s)) cfg.patterns := rfl
          rw [e, Nat.mul_add]
          exact Nat.add_assoc _ _ _

/-- C6: the accumulated detection score is exactly 2 per static pattern
matched in the raw page HTML, plus 3 per named indicator substring found,
plus 3 per pattern matched in each script src, plus 2 per pattern matched
in each link href; the reported confidence is min(10 × score, 100). -/
theorem tech_detection_weights (cfg : TechConfig) (doc : TechDoc) :
    detection_score cfg doc
      = 2 * patternMatchCount cfg.patterns (pyLower doc.html)
        + 3 * cfg.indicators.countP
            (fun ind => strHasSub (pyLower ind) (pyLower doc.html))
        + 3 * (doc.scripts.map (srcMatches cfg)).sum
        + 2 * (doc.links.map (srcMatches cfg)).sum
    ∧ confidence cfg doc = min (10 * detection_score cfg doc) 100 := by
  constructor
  · simp only [detection_score]
    rw [foldl_if_count, foldl_if_count, foldl_attr_count, foldl_attr_count]
    unfold patternMatchCount
    rw [Nat.zero_add]
  · unfold confidence
    rw [Nat.mul_comm]

/-! ## URL validation — `validate_url`
(api_server.py, lines 95–116, and business_intelligence_api.py, lines 64–72)

`urllib.parse.urlparse` is modelled on the inputs that reach it here: after
normalization every URL starts with `http://` or `https://`, so the scheme
is the literal prefix and the netloc is the text between `"//"` and the
first `/`, `?` or `#`. -/

instance {e a : Type} [DecidableEq e] [DecidableEq a] :
    DecidableEq (Except e a) := fun x y =>
  match x, y with
  | .error p, .error q =>
      if h : p = q then isTrue (by rw [h])
      else isFalse (by intro hh; cases hh; exact h rfl)
  | .ok p, .ok q =>
      if h : p = q then isTrue (by rw [h])
      else isFalse (by intro hh; cases hh; exact h rfl)
  | .error _, .ok _ => isFalse (by intro hh; cases hh)
  | .ok _, .error _ => isFalse (by intro hh; cases hh)

structure APIErr where
  message : String
  status : Nat
deriving DecidableEq

/-- `'https://' + url` prefixing when the scheme is missing (both files). -/
def normalizeScheme (url : String) : String :=
  if pyStartsWith url "http://" || pyStartsWith url "https://" then url
  else "https://" ++ url

/-- `urlparse(u).scheme` for the http/https-prefixed URLs reaching it. -/
def urlScheme (u : String) : String :=
  if pyStartsWith u "https://" then "https"
  else if pyStartsWith u "http://" then "http"
  else ""

/-- `urlparse(u).netloc` for the http/https-prefixed URLs reaching it. -/
def urlNetloc (u : String) : String :=
  let rest :=
    if pyStartsWith u "https://" then u.drop 8
    else if pyStartsWith u "http://" then u.drop 7
    else ""
  (rest.data.takeWhile (fun c => !(c = '/' || c = '?' || c = '#'))).asString

/-- api_server.py `validate_url`: empty check, scheme prefixing, the
`all([scheme, netloc])` format check, then the `dangerous in url.lower()`
loopback-substring check. -/
def validate_url (url : String) : Except APIErr String :=
  if url = "" then .error ⟨"URL is required", 400⟩
  else if urlScheme (normalizeScheme url) = ""
      ∨ urlNetloc (normalizeScheme url) = "" then
    .error ⟨"Invalid URL format", 400⟩
  else if strHasSub "localhost" (pyLower (normalizeScheme url))
      || strHasSub "127.0.0.1" (pyLower (normalizeScheme url))
      || strHasSub "0.0.0.0" (pyLower (normalizeScheme url)) then
    .error ⟨"Invalid URL - localhost not allowed", 400⟩
  else .ok (normalizeScheme url)

/-- business_intelligence_api.py `validate_url`: only the empty check and
the scheme prefixing — no format check, no loopback check. -/
def bi_validate_url (url : String) : Except APIErr String :=
  if url = "" then .error ⟨"URL is required", 400⟩
  else .ok (normalizeScheme url)

/-- C9 counterexample: the validator of business_intelligence_api accepts
the loopback target "localhost" (and a malformed-host URL) instead of
rejecting it; only api_server's validator performs those checks. -/
theorem url_validator_counterexample :
    bi_validate_url "localhost" = Except.ok "https://localhost"
    ∧ bi_validate_url "http://127.0.0.1:5000/admin"
        = Except.ok "http://127.0.0.1:5000/admin"
    ∧ validate_url "localhost"
        = Except.error ⟨"Invalid URL - localhost not allowed", 400⟩ := by
  refine ⟨by decide, by decide, by decide⟩

/-- C9 amended: api_server's `validate_url` lets a URL through only when it
is non-empty, its normalized form has a non-empty netloc, and it contains
none of "localhost", "127.0.0.1", "0.0.0.0"; business_intelligence_api's
validator instead accepts every non-empty URL, loopback included. -/
theorem url_validator_amended (url v u : String)
    (hok : validate_url url = Except.ok v) (hu : u ≠ "") :
    url ≠ "" ∧ v = normalizeScheme url ∧ urlNetloc v ≠ ""
    ∧ strHasSub "localhost" (pyLower v) = false
    ∧ strHasSub "127.0.0.1" (pyLower v) = false
    ∧ strHasSub "0.0.0.0" (pyLower v) = false
    ∧ bi_validate_url u = Except.ok (normalizeScheme u) := by
  unfold validate_url at hok
  split at hok
  · exact absurd hok (by simp)
  next h0 =>
  split at hok
  · exact absurd hok (by simp)
  next h1 =>
  split at hok
  · exact absurd hok (by simp)
  next h2 =>
  have hv : v = normalizeScheme url := by
    cases hok
    rfl
  push_neg at h1
  rcases h1 with ⟨-, hn⟩
  simp only [Bool.or_eq_true, not_or, Bool.not_eq_true] at h2
  rcases h2 with ⟨⟨hl, h7⟩, hz⟩
  subst hv
  refine ⟨h0, rfl, hn, hl, h7, hz, ?_⟩
  unfold bi_validate_url
  rw [if_neg hu]

/-- Closed witness for the amended C9: a clean URL passes api_server's
validator unchanged; "localhost" passes business_intelligence_api's. -/
theorem url_validator_amended_witness :
    "https://example.com" ≠ ""
    ∧ "https://example.com" = normalizeScheme "https://example.com"
    ∧ urlNetloc "https://example.com" ≠ ""
    ∧ strHasSub "localhost" (pyLower "https://example.com") = false
    ∧ strHasSub "127.0.0.1" (pyLower "https://example.com") = false
    ∧ strHasSub "0.0.0.0" (pyLower "https://example.com") = false
    ∧ bi_validate_url "localhost" = Except.ok (normalizeScheme "localhost") :=
  url_validator_amended "https://example.com" "https://example.com"
    "localhost" (by decide) (by decide)

/-! ## Batch endpoint — `analyze_batch`
(api_server.py, lines 330–411; the same body/empty/cap checks appear in
business_intelligence_api.py `batch_lead_scoring`, lines 858–870)

The per-URL analysis is a parameter: `analyze_website` returning a result
is `.ok`, returning `None` is `.noResult`, raising is `.raised msg`; the
endpoint's `try/except` turns the last two into one `status: 'error'`
entry.  The request body is `none` when `request.get_json()` is falsy.
The source validates every URL before analyzing any (a validation error
aborts the whole request), then runs the per-URL loop appending exactly
one entry per URL, with no retry. -/

inductive AnalyzeOutcome (α : Type) where
  | ok (data : α)
  | noResult
  | raised (msg : String)
deriving DecidableEq

structure BatchEntry (α : Type) where
  url : String
  status : String
  data : Option α
  error : Option String
deriving DecidableEq

/-- The single result entry the per-URL loop body appends for one URL. -/
def batchEntryFor {α : Type} (u : String) : AnalyzeOutcome α → BatchEntry α
  | .ok d => ⟨u, "success", some d, none⟩
  | .noResult => ⟨u, "error", none, some "Analysis failed"⟩
  | .raised m => ⟨u, "error", none, some m⟩

/-- Did the analysis of one URL fail (no result or exception)? -/
def isFailure {α : Type} : AnalyzeOutcome α → Bool
  | .ok _ => false
  | .noResult => true
  | .raised _ => true

/-- The `for url in urls: validated_urls.append(validate_url(url))` loop:
the first validation error aborts the request. -/
def validateAll : List String → Except APIErr (List String)
  | [] => .ok []
  | u :: rest =>
      match validate_url u with
      | .error e => .error e
      | .ok v =>
          match validateAll rest with
          | .error e => .error e
          | .ok vs => .ok (v :: vs)

/-- `analyze_batch`: body check, empty-urls check, the 5-URL cap, URL
validation, then one entry per validated URL. -/
def analyze_batch {α : Type} (analyze : String → AnalyzeOutcome α)
    (body : Option (List String)) : Except APIErr (List (BatchEntry α)) :=
  match body with
  | none => .error ⟨"Request body is required", 400⟩
  | some urls =>
      if urls = [] then .error ⟨"URLs array is required", 400⟩
      else if 5 < urls.length then
        .error ⟨"Maximum 5 URLs allowed per batch", 400⟩
      else
        match validateAll urls with
        | .error e => .error e
        | .ok validated =>
            .ok (validated.map (fun u => batchEntryFor u (analyze u)))

/-- C7: a batch of more than 5 URLs is rejected with the 400 error
"Maximum 5 URLs allowed per batch" whatever the analyzer would do — the
result does not depend on `analyze`, so no URL is analyzed (and none is
silently truncated). -/
theorem batch_cap_rejects {α : Type} (analyze : String → AnalyzeOutcome α)
    (urls : List String) (h : 5 < urls.length) :
    analyze_batch analyze (some urls)
      = Except.error ⟨"Maximum 5 URLs allowed per batch", 400⟩ := by
  simp only [analyze_batch]
  have hne : ¬ (urls = []) := by
    intro he
    subst he
    simp at h
  rw [if_neg hne, if_pos h]

/-- Closed witness: a request of 6 URLs is rejected outright. -/
theorem batch_cap_rejects_witness :
    analyze_batch (fun _ => (AnalyzeOutcome.noResult : AnalyzeOutcome Nat))
        (some ["https://a.com", "https://b.com", "https://c.com",
               "https://d.com", "https://e.com", "https://f.com"])
      = Except.error ⟨"Maximum 5 URLs allowed per batch", 400⟩ :=
  batch_cap_rejects _ _ (by decide)

theorem validateAll_length (urls validated : List String)
    (h : validateAll urls = Except.ok validated) :
    validated.length = urls.length := by
  induction urls generalizing validated with
  | nil =>
      unfold validateAll at h
      cases h
      rfl
  | cons u rest ih =>
      unfold validateAll at h
      cases hv : validate_url u with
      | error e => rw [hv] at h; exact absurd h (by simp)
      | ok v =>
          rw [hv] at h
          cases hr : validateAll rest with
          | error e => rw [hr] at h; exact absurd h (by simp)
          | ok vs =>
              rw [hr] at h
              cases h
              simp [ih vs hr]

/-- C8: for a valid batch of at most 5 URLs the endpoint returns exactly one
entry per validated URL, computed independently per URL by a single
application of `analyze` (no retry): an analysis failure yields a
`status = 'error'` entry for that URL alone while every sibling's entry
still comes from its own analysis. -/
theorem batch_failure_isolation {α : Type}
    (analyze : String → AnalyzeOutcome α) (urls validated : List String)
    (u : String) (hne : urls ≠ []) (hlen : urls.length ≤ 5)
    (hval : validateAll urls = Except.ok validated) :
    analyze_batch analyze (some urls)
      = Except.ok (validated.map (fun w => batchEntryFor w (analyze w)))
    ∧ validated.length = urls.length
    ∧ (batchEntryFor u (analyze u)).url = u
    ∧ ((batchEntryFor u (analyze u)).status = "error"
        ↔ isFailure (analyze u) = true)
    ∧ ((batchEntryFor u (analyze u)).status = "success"
        ↔ isFailure (analyze u) = false) := by
  refine ⟨?_, validateAll_length urls validated hval, ?_, ?_, ?_⟩
  · simp only [analyze_batch]
    rw [if_neg hne, if_neg (by omega), hval]
  · cases analyze u <;> rfl
  · cases analyze u <;> simp [batchEntryFor, isFailure]
  · cases analyze u <;> simp [batchEntryFor, isFailure]

/-- Closed witness: a 2-URL batch where the second URL's analysis raises
still returns one success entry and one error entry, in order. -/
theorem batch_failure_isolation_witness :
    analyze_batch
        (fun w => if w = "https://ok.example" then AnalyzeOutcome.ok 7
          else AnalyzeOutcome.raised "boom")
        (some ["https://ok.example", "https://down.example"])
      = Except.ok
          [⟨"https://ok.example", "success", some 7, none⟩,
           ⟨"https://down.example", "error", none, some "boom"⟩]
    ∧ (2 : Nat) = 2
    ∧ (batchEntryFor "https://down.example"
        ((fun w => if w = "https://ok.example" then AnalyzeOutcome.ok 7
          else AnalyzeOutcome.raised "boom") "https://down.example")).url
        = "https://down.example"
    ∧ ((batchEntryFor "https://down.example"
        ((fun w => if w = "https://ok.example" then AnalyzeOutcome.ok 7
          else AnalyzeOutcome.raised "boom") "https://down.example")).status
          = "error"
        ↔ isFailure
            ((fun w => if w = "https://ok.example" then AnalyzeOutcome.ok 7
              else AnalyzeOutcome.raised "boom") "https://down.example")
            = true)
    ∧ ((batchEntryFor "https://down.example"
        ((fun w => if w = "https://ok.example" then AnalyzeOutcome.ok 7
          else AnalyzeOutcome.raised "boom") "https://down.example")).status
          = "success"
        ↔ isFailure
            ((fun w => if w = "https://ok.example" then AnalyzeOutcome.ok 7
              else AnalyzeOutcome.raised "boom") "https://down.example")
            = false) := by
  have h := batch_failure_isolation
    (fun w => if w = "https://ok.example" then AnalyzeOutcome.ok 7
      else AnalyzeOutcome.raised "boom")
    ["https://ok.example", "https://down.example"]
    ["https://ok.example", "https://down.example"]
    "https://down.example" (by decide) (by decide) (by decide)
  rcases h with ⟨h1, h2, h3, h4, h5⟩
  refine ⟨?_, rfl, h3, h4, h5⟩
  rw [h1]
  decide
